import Mathlib

/-!
Verification of the CV analysis service (src/backend/python-api/cv_analysis.py).

The Python code is shallowly embedded: every extraction and scoring routine of
the `CVAnalyzer` class and the two endpoint functions are translated into
executable Lean definitions.  Python floats are modelled by exact rationals;
`round(x, 2)` is modelled by `round2`.  Python regular expressions are
modelled by hand-written backtracking matchers specialised to the concrete
patterns appearing in the source, following the leftmost-match, greedy,
backtracking semantics of the `re` module.  `re.findall` returns the content
of the capture group when the pattern has exactly one group (the phone
pattern) and the whole match when it has none (the email pattern); the
matchers below reproduce that.
-/

/-- Characters matched by Python regex `\s` (ASCII). -/
def pySpace (c : Char) : Bool :=
  c = ' ' || c = '\t' || c = '\n' || c = '\x0b' || c = '\x0c' || c = '\r'

/-- Characters matched by the class `[-.\s]` in the phone pattern. -/
def sepChar (c : Char) : Bool :=
  c = '-' || c = '.' || pySpace c

/-- Python lower-casing of a string (ASCII case mapping). -/
def strLower (s : String) : String := ⟨s.data.map Char.toLower⟩

/-- Python upper-casing of a string (ASCII case mapping). -/
def strUpper (s : String) : String := ⟨s.data.map Char.toUpper⟩

/-- Helper for Python `str.title`: upper-case a letter that follows a
non-letter, lower-case the other letters.  The flag records whether the
previous character was alphabetic. -/
def titleAux : Bool → List Char → List Char
  | _, [] => []
  | prevAlpha, c :: cs =>
    (if prevAlpha then c.toLower else c.toUpper) :: titleAux c.isAlpha cs

/-- Python `str.title()` (ASCII). -/
def titleCase (s : String) : String := ⟨titleAux false s.data⟩

/-- Does the list start with the given pattern of characters? -/
def startsWithL : List Char → List Char → Bool
  | [], _ => true
  | _ :: _, [] => false
  | p :: ps, c :: cs => c = p && startsWithL ps cs

/-- Does the second list contain the first as a contiguous run?  Models the
Python substring test `needle in haystack`. -/
def hasSub (needle : List Char) : List Char → Bool
  | [] => startsWithL needle []
  | c :: cs => startsWithL needle (c :: cs) || hasSub needle cs

/-- Python `needle in haystack` on strings. -/
def containsSub (needle haystack : String) : Bool :=
  hasSub needle.data haystack.data

/-- Python `int` applied to a non-empty string of decimal digits. -/
def digitsToNat (ds : List Char) : Nat :=
  ds.foldl (fun n c => 10 * n + (c.toNat - 48)) 0

/-- Python `round(q, 2)`.  Modelled with exact rationals: multiply by 100,
round to the nearest integer, divide by 100.  (No scoring value relevant to
the claims falls on an exact half-cent tie, so the tie-breaking rule is
immaterial.) -/
def round2 (q : ℚ) : ℚ := (round (q * 100) : ℤ) / 100

/-! ### Email extraction

Source: `CVAnalyzer.extract_email`, pattern
`\b[A-Za-z0-9._%+-]+@[A-Za-z0-9.-]+\.[A-Z|a-z]{2,}\b`.
The pattern has no capture group, so `re.findall` returns full matches and
the function returns the first full match, or `None`. -/

/-- Python regex word characters `\w` (ASCII). -/
def wordChar (c : Char) : Bool := c.isAlphanum || c = '_'

/-- The local-part class `[A-Za-z0-9._%+-]`. -/
def localChar (c : Char) : Bool :=
  c.isAlpha || c.isDigit || c = '.' || c = '_' || c = '%' || c = '+' || c = '-'

/-- The domain class `[A-Za-z0-9.-]`. -/
def domainChar (c : Char) : Bool :=
  c.isAlpha || c.isDigit || c = '.' || c = '-'

/-- The top-level-domain class `[A-Z|a-z]` (the `|` is a literal character of
the class as written in the source). -/
def tldChar (c : Char) : Bool :=
  ('A' ≤ c && c ≤ 'Z') || c = '|' || ('a' ≤ c && c ≤ 'z')

/-- A `\b` word boundary between two adjacent characters (absent character =
outside the string, not a word character). -/
def boundaryB (prev next : Option Char) : Bool :=
  (match prev with | some c => wordChar c | none => false)
    != (match next with | some c => wordChar c | none => false)

/-- Backtracking for `[A-Z|a-z]{2,}\b`: `revTaken` is the reversed candidate
run (greedy: the full run first), `rest` is what follows it.  Shrink the run
until the trailing boundary holds and the run has at least two characters. -/
def tldPick : List Char → List Char → Option (List Char)
  | [], _ => none
  | c :: rt, rest =>
    if rt.length + 1 ≥ 2 && boundaryB (some c) rest.head? then
      some (c :: rt).reverse
    else tldPick rt (c :: rest)

/-- Backtracking for `[A-Za-z0-9.-]+\.` then `[A-Z|a-z]{2,}\b`:
`revTaken` is the reversed part of the maximal domain run still assigned to
`[A-Za-z0-9.-]+\.`, and `rest` the suffix after it.  The greedy engine tries
the rightmost dot of the run first.  On success return the domain part (in
order, without its final dot) together with the matched TLD characters. -/
def domTry : List Char → List Char → Option (List Char × List Char)
  | [], _ => none
  | c :: rt, rest =>
    match
      (if c = '.' && !rt.isEmpty then
        (tldPick (rest.takeWhile tldChar).reverse (rest.dropWhile tldChar)).map
          (fun t => (rt.reverse, t))
      else none) with
    | some r => some r
    | none => domTry rt (c :: rest)

/-- Attempt the email pattern at one position; `prev` is the character just
before the position (for the leading `\b`).  Returns the full match. -/
def matchEmailAt (prev : Option Char) (l : List Char) : Option (List Char) :=
  if boundaryB prev l.head? then
    let loc := l.takeWhile localChar
    if loc.isEmpty then none
    else
      match l.dropWhile localChar with
      | '@' :: l2 =>
        let dom := l2.takeWhile domainChar
        let rest := l2.dropWhile domainChar
        match domTry dom.reverse rest with
        | some (dpart, tpart) => some (loc ++ '@' :: (dpart ++ '.' :: tpart))
        | none => none
      | _ => none
  else none

/-- Scan of `re.findall` for the email pattern: leftmost match wins. -/
def emailScan (prev : Option Char) : List Char → Option (List Char)
  | [] => none
  | c :: cs =>
    match matchEmailAt prev (c :: cs) with
    | some m => some m
    | none => emailScan (some c) cs

/-- `CVAnalyzer.extract_email`: first full match of the email pattern. -/
def extractEmail (text : String) : Option String :=
  (emailScan none text.data).map (fun l => ⟨l⟩)

/-! ### Phone extraction

Source: `CVAnalyzer.extract_phone`, pattern
`(\+?\d{1,3}[-.\s]?)?\(?\d{3}\)?[-.\s]?\d{3}[-.\s]?\d{4}`.
The pattern has exactly one capture group (the optional country code), so
`re.findall` returns the *group* content of each match — the empty string
when the group did not participate.  The function returns `matches[0]`. -/

/-- Drop exactly `n` digits, failing if a non-digit (or the end) intervenes. -/
def dropDigits : Nat → List Char → Option (List Char)
  | 0, l => some l
  | _ + 1, [] => none
  | n + 1, c :: l => if c.isDigit then dropDigits n l else none

/-- Take exactly `n` digits, returning them and the rest. -/
def takeDigitsN : Nat → List Char → Option (List Char × List Char)
  | 0, l => some ([], l)
  | _ + 1, [] => none
  | n + 1, c :: l =>
    if c.isDigit then (takeDigitsN n l).map (fun p => (c :: p.1, p.2)) else none

/-- Consume one given character if present (a deterministic `x?`). -/
def skipOptC (x : Char) : List Char → List Char
  | [] => []
  | c :: l => if c = x then l else c :: l

/-- Consume one character of a class if present (a deterministic `[..]?`). -/
def skipOptP (p : Char → Bool) : List Char → List Char
  | [] => []
  | c :: l => if p c then l else c :: l

/-- The mandatory tail `\(?\d{3}\)?[-.\s]?\d{3}[-.\s]?\d{4}` of the phone
pattern.  Each optional element is deterministic here because the classes are
disjoint from the digits that must follow. -/
def phoneTail (l : List Char) : Bool :=
  match dropDigits 3 (skipOptC '(' l) with
  | none => false
  | some l1 =>
    match dropDigits 3 (skipOptP sepChar (skipOptC ')' l1)) with
    | none => false
    | some l2 => (dropDigits 4 (skipOptP sepChar l2)).isSome

/-- Split a leading literal `+` (the `\+?` of the group, which is forced when
a `+` is present because `\d` cannot match it). -/
def plusSplit (l : List Char) : List Char × List Char :=
  match l with
  | c :: r => if c = '+' then (['+'], r) else ([], l)
  | [] => ([], [])

/-- One greedy alternative of the country-code group `(\+?\d{1,3}[-.\s]?)`:
`plus` is the consumed leading plus, `k` the number of digits tried for
`\d{1,3}`.  On success return the group content of the whole match. -/
def phoneGroupK (plus : List Char) (k : Nat) (l : List Char) : Option String :=
  match takeDigitsN k l with
  | none => none
  | some (ds, r) =>
    match r with
    | c :: r2 =>
      if sepChar c then
        if phoneTail r2 then some ⟨plus ++ ds ++ [c]⟩ else none
      else if phoneTail (c :: r2) then some ⟨plus ++ ds⟩ else none
    | [] => if phoneTail [] then some ⟨plus ++ ds⟩ else none

/-- Attempt the phone pattern at one position.  The greedy engine tries the
group with 3, 2, then 1 digits, and finally without the group; the returned
string is the capture-group content (empty when the group is unused). -/
def matchPhoneAt (l : List Char) : Option String :=
  let p := plusSplit l
  match phoneGroupK p.1 3 p.2 with
  | some g => some g
  | none =>
    match phoneGroupK p.1 2 p.2 with
    | some g => some g
    | none =>
      match phoneGroupK p.1 1 p.2 with
      | some g => some g
      | none => if phoneTail l then some "" else none

/-- Scan of `re.findall` for the phone pattern: leftmost match wins. -/
def phoneScan : List Char → Option String
  | [] => none
  | c :: cs =>
    match matchPhoneAt (c :: cs) with
    | some g => some g
    | none => phoneScan cs

/-- `CVAnalyzer.extract_phone`: the group content of the first match
(`matches[0]`), or `none` when there is no match at all.  `some ""`
corresponds to Python returning the empty string. -/
def extractPhone (text : String) : Option String := phoneScan text.data

/-! ### Skills and education extraction -/

/-- The fixed skill vocabulary of `CVAnalyzer.extract_skills`. -/
def skillKeywords : List String :=
  ["python", "javascript", "typescript", "java", "c++", "react", "nodejs",
   "angular", "vue", "django", "flask", "fastapi", "sql", "postgresql",
   "mongodb", "redis", "docker", "kubernetes", "aws", "azure", "gcp",
   "machine learning", "ai", "data science", "deep learning", "nlp",
   "git", "agile", "scrum", "jenkins", "ci/cd", "microservices"]

/-- `CVAnalyzer.extract_skills`: every vocabulary word occurring in the
lower-cased text, title-cased.  The source wraps the result in
`list(set(...))`, which only removes duplicates (there are none, the
vocabulary entries being pairwise distinct) and scrambles the order (which is
unspecified in Python and irrelevant to every use of the result). -/
def extractSkills (text : String) : List String :=
  (skillKeywords.filter (fun k => containsSub k (strLower text))).map titleCase

/-- The fixed degree keyword list of `CVAnalyzer.extract_education`. -/
def degreeKeywords : List String :=
  ["phd", "master", "bachelor", "mba", "msc", "bsc", "ba", "ma"]

/-- `CVAnalyzer.extract_education`: every degree keyword occurring in the
lower-cased text, upper-cased, in keyword-list order. -/
def extractEducation (text : String) : List String :=
  (degreeKeywords.filter (fun d => containsSub d (strLower text))).map strUpper

/-! ### Experience extraction

Source: `CVAnalyzer.extract_experience_years` with the three patterns
`(\d+)\+?\s*years?\s+(?:of\s+)?experience`, `experience[:\s]+(\d+)\+?\s*years?`
and `(\d+)\+?\s*years?\s+in`, tried in that order on the lower-cased text;
the first match of the first matching pattern wins, default 0. -/

/-- Match a literal character sequence. -/
def litM : List Char → List Char → Option (List Char)
  | [], l => some l
  | _ :: _, [] => none
  | p :: ps, c :: cs => if c = p then litM ps cs else none

/-- `\s+` followed by a non-space atom: one mandatory space then the maximal
space run. -/
def spacePlus : List Char → Option (List Char)
  | [] => none
  | c :: cs => if pySpace c then some (cs.dropWhile pySpace) else none

/-- The characters of the literal `experience`. -/
def expWord : List Char := ['e', 'x', 'p', 'e', 'r', 'i', 'e', 'n', 'c', 'e']

/-- Attempt `(\d+)\+?\s*years?\s+(?:of\s+)?experience` at one position,
returning the captured digits. -/
def expP1At (l : List Char) : Option (List Char) :=
  let ds := l.takeWhile Char.isDigit
  if ds.isEmpty then none
  else
    let r2 := skipOptC '+' (l.dropWhile Char.isDigit)
    match litM ['y', 'e', 'a', 'r'] (r2.dropWhile pySpace) with
    | none => none
    | some r4 =>
      match spacePlus (skipOptC 's' r4) with
      | none => none
      | some r6 =>
        match
          (match litM ['o', 'f'] r6 with
           | some r7 =>
             match spacePlus r7 with
             | some r8 => litM expWord r8
             | none => none
           | none => none) with
        | some _ => some ds
        | none =>
          match litM expWord r6 with
          | some _ => some ds
          | none => none

/-- The class `[:\s]` of the second experience pattern. -/
def colonSpace (c : Char) : Bool := c = ':' || pySpace c

/-- Attempt `experience[:\s]+(\d+)\+?\s*years?` at one position, returning
the captured digits. -/
def expP2At (l : List Char) : Option (List Char) :=
  match litM expWord l with
  | none => none
  | some r1 =>
    if (r1.takeWhile colonSpace).isEmpty then none
    else
      let r2 := r1.dropWhile colonSpace
      let ds := r2.takeWhile Char.isDigit
      if ds.isEmpty then none
      else
        let r3 := skipOptC '+' (r2.dropWhile Char.isDigit)
        match litM ['y', 'e', 'a', 'r'] (r3.dropWhile pySpace) with
        | none => none
        | some _ => some ds

/-- Attempt `(\d+)\+?\s*years?\s+in` at one position, returning the captured
digits. -/
def expP3At (l : List Char) : Option (List Char) :=
  let ds := l.takeWhile Char.isDigit
  if ds.isEmpty then none
  else
    let r2 := skipOptC '+' (l.dropWhile Char.isDigit)
    match litM ['y', 'e', 'a', 'r'] (r2.dropWhile pySpace) with
    | none => none
    | some r4 =>
      match spacePlus (skipOptC 's' r4) with
      | none => none
      | some r5 => (litM ['i', 'n'] r5).map (fun _ => ds)

/-- Leftmost-match scan of `re.findall` for a matcher `f`. -/
def scanOpt (f : List Char → Option (List Char)) : List Char → Option (List Char)
  | [] => none
  | c :: cs =>
    match f (c :: cs) with
    | some r => some r
    | none => scanOpt f cs

/-- `CVAnalyzer.extract_experience_years`: the three patterns in priority
order on the lower-cased text; `int` of the first capture of the first
pattern that matches anywhere; 0 when none matches. -/
def extractExperienceYears (text : String) : Nat :=
  let t := (strLower text).data
  match scanOpt expP1At t with
  | some ds => digitsToNat ds
  | none =>
    match scanOpt expP2At t with
    | some ds => digitsToNat ds
    | none =>
      match scanOpt expP3At t with
      | some ds => digitsToNat ds
      | none => 0

/-! ### Scoring (`CVAnalyzer.calculate_overall_score` and helpers) -/

/-- The extracted candidate data (the `cv_data` dictionary of `analyze_cv`). -/
structure CvData where
  email : Option String
  phone : Option String
  skills : List String
  experienceYears : Nat
  education : List String
deriving DecidableEq, Repr

/-- The job requirement dictionary of `analyze_cv`. -/
structure JobRequirements where
  requiredSkills : List String
  minExperienceYears : Nat
  requiredEducation : String
deriving DecidableEq, Repr

/-- Python truthiness of an optional string: `None` and `''` are falsy. -/
def truthyStr : Option String → Bool
  | none => false
  | some s => !(s == "")

/-- `CVAnalyzer.calculate_skill_match_score`. -/
def skillMatchScore (candidateSkills requiredSkills : List String) : ℚ :=
  if requiredSkills = [] then 100
  else
    let candL := candidateSkills.map strLower
    let reqL := requiredSkills.map strLower
    let numMatches := reqL.countP (fun s => candL.contains s)
    round2 ((numMatches : ℚ) / (reqL.length : ℚ) * 100)

/-- The experience component of `calculate_overall_score`. -/
def expScore (candidateExp requiredExp : Nat) : ℚ :=
  if candidateExp ≥ requiredExp then
    min 100 ((candidateExp : ℚ) / ((max requiredExp 1 : Nat) : ℚ) * 100)
  else (candidateExp : ℚ) / ((max requiredExp 1 : Nat) : ℚ) * 70

/-- The education component of `calculate_overall_score` (`required_edu` is
the lower-cased requirement string of the source, written inline). -/
def eduScore (candidateEdu : List String) (requiredEducation : String) : ℚ :=
  if containsSub "phd" (strLower requiredEducation)
      && candidateEdu.contains "PHD" then 100
  else if containsSub "master" (strLower requiredEducation)
      && (["MASTER", "MBA", "MSC", "MA"].any fun d => candidateEdu.contains d) then 100
  else if containsSub "bachelor" (strLower requiredEducation)
      && (["BACHELOR", "BSC", "BA"].any fun d => candidateEdu.contains d) then 100
  else if !candidateEdu.isEmpty then 80
  else 0

/-- The completeness component of `calculate_overall_score`: 25 points for a
truthy email, phone, non-empty skill list and positive experience. -/
def completeness (cv : CvData) : ℚ :=
  (if truthyStr cv.email then 25 else 0) + (if truthyStr cv.phone then 25 else 0)
    + (if !cv.skills.isEmpty then 25 else 0)
    + (if cv.experienceYears > 0 then 25 else 0)

/-- The un-rounded weighted total (`total_score = sum(scores.values())`). -/
def rawTotal (cv : CvData) (req : JobRequirements) : ℚ :=
  skillMatchScore cv.skills req.requiredSkills * 0.4
    + expScore cv.experienceYears req.minExperienceYears * 0.3
    + eduScore cv.education req.requiredEducation * 0.2
    + completeness cv * 0.1

/-- `CVAnalyzer._get_recommendation`. -/
def getRecommendation (score : ℚ) : String :=
  if score ≥ 80 then "Strong Match - Highly Recommended for Interview"
  else if score ≥ 65 then "Good Match - Recommended for Interview"
  else if score ≥ 50 then "Moderate Match - Consider for Interview"
  else "Weak Match - Not Recommended"

/-- The dictionary returned by `calculate_overall_score`. -/
structure ScoreResult where
  overallScore : ℚ
  skillsMatch : ℚ
  experienceMatch : ℚ
  educationMatch : ℚ
  cvCompleteness : ℚ
  recommendation : String
deriving DecidableEq, Repr

/-- `CVAnalyzer.calculate_overall_score`: the breakdown values are rounded for
the returned dictionary, while the recommendation is computed from the
un-rounded total. -/
def calculateOverallScore (cv : CvData) (req : JobRequirements) : ScoreResult :=
  { overallScore := round2 (rawTotal cv req)
    skillsMatch := round2 (skillMatchScore cv.skills req.requiredSkills)
    experienceMatch := round2 (expScore cv.experienceYears req.minExperienceYears)
    educationMatch := round2 (eduScore cv.education req.requiredEducation)
    cvCompleteness := round2 (completeness cv)
    recommendation := getRecommendation (rawTotal cv req) }

/-- The `cv_data` dictionary built by `analyze_cv` from the document text. -/
def extractCvData (text : String) : CvData :=
  { email := extractEmail text
    phone := extractPhone text
    skills := extractSkills text
    experienceYears := extractExperienceYears text
    education := extractEducation text }

/-! ### Batch analysis (`batch_analyze_cvs`)

Document-to-text decoding (PDF parsing, encoding handling) is an external
collaborator; a batch input is therefore either decoded text or a
per-document decode failure, which `batch_analyze_cvs` catches and records
as an error entry. -/

/-- One uploaded document, after the external document-to-text step. -/
inductive DocInput where
  | ok (filename text : String)
  | fail (filename err : String)
deriving DecidableEq, Repr

/-- Whether a document failed to decode. -/
def DocInput.isFail : DocInput → Bool
  | .ok _ _ => false
  | .fail _ _ => true

/-- A successfully analyzed candidate (the per-document result of
`analyze_cv` kept by `batch_analyze_cvs`). -/
structure AnalyzeOk where
  filename : String
  cv : CvData
  score : ScoreResult
deriving DecidableEq, Repr

/-- An entry of the `errors` list of `batch_analyze_cvs`. -/
structure BatchErr where
  filename : String
  error : String
deriving DecidableEq, Repr

/-- The dictionary returned by `batch_analyze_cvs`. -/
structure BatchResult where
  totalCandidates : Nat
  successfullyAnalyzed : Nat
  rankedCandidates : List AnalyzeOk
  errors : List BatchErr
deriving Repr

/-- The sort relation of `valid_results.sort(key=..., reverse=True)`:
descending by overall score. -/
def rankRel (a b : AnalyzeOk) : Prop :=
  b.score.overallScore ≤ a.score.overallScore

instance : DecidableRel rankRel := fun a b =>
  inferInstanceAs (Decidable (b.score.overallScore ≤ a.score.overallScore))

instance : IsTotal AnalyzeOk rankRel :=
  ⟨fun a b => le_total b.score.overallScore a.score.overallScore⟩

instance : IsTrans AnalyzeOk rankRel :=
  ⟨fun _ _ _ h1 h2 => le_trans h2 h1⟩

/-- The successful per-document result of `analyze_cv` on decoded text. -/
def analyzeDoc (filename text : String) (req : JobRequirements) : AnalyzeOk :=
  { filename := filename
    cv := extractCvData text
    score := calculateOverallScore (extractCvData text) req }

/-- The successful results of a batch, in input order. -/
def batchOks (docs : List DocInput) (req : JobRequirements) : List AnalyzeOk :=
  docs.filterMap fun d =>
    match d with
    | .ok f t => some (analyzeDoc f t req)
    | .fail _ _ => none

/-- The error entries of a batch, in input order. -/
def batchErrs (docs : List DocInput) : List BatchErr :=
  docs.filterMap fun d =>
    match d with
    | .ok _ _ => none
    | .fail f e => some { filename := f, error := e }

/-- `batch_analyze_cvs`: analyze every document, isolating per-document
failures, and stable-sort the successful results by overall score,
descending.  Python `list.sort` is a stable sort; with the descending
comparison it is exactly `List.insertionSort rankRel` (an element is
inserted before the first already-placed element whose score is not
larger). -/
def batchAnalyze (docs : List DocInput) (req : JobRequirements) : BatchResult :=
  let ranked := List.insertionSort rankRel (batchOks docs req)
  { totalCandidates := docs.length
    successfullyAnalyzed := ranked.length
    rankedCandidates := ranked
    errors := batchErrs docs }

/-! ### Specification-side definitions

These restate parts of the claims in the claims own wording, to be compared
with the source-derived definitions above. -/

/-- The skills-match component as the claim states it: 100 for an empty
requirement list, otherwise the fraction of required skills present
case-insensitively among the candidate skills, times 100, rounded. -/
def skillMatchSpec (candidateSkills requiredSkills : List String) : ℚ :=
  if requiredSkills.isEmpty then 100
  else
    let present := requiredSkills.countP fun s =>
      (candidateSkills.map strLower).contains (strLower s)
    round2 ((present : ℚ) / (requiredSkills.length : ℚ) * 100)

/-- The education tiers in the priority order stated by the claim: the
requirement keyword and the candidate degree codes that satisfy the tier. -/
def eduTiers : List (String × List String) :=
  [("phd", ["PHD"]),
   ("master", ["MASTER", "MBA", "MSC", "MA"]),
   ("bachelor", ["BACHELOR", "BSC", "BA"])]

/-- The education component as the claim states it: the first satisfied tier
in phd-master-bachelor order gives 100, otherwise any education entry gives
80, otherwise 0. -/
def eduScoreSpec (candidateEdu : List String) (requiredEducation : String) : ℚ :=
  match eduTiers.find? (fun t =>
      containsSub t.1 (strLower requiredEducation)
        && (t.2.any fun d => candidateEdu.contains d)) with
  | some _ => 100
  | none => if candidateEdu.isEmpty then 0 else 80

/-! ### Concrete inputs used by individual claims -/

/-- The end-to-end document text of claim C1. -/
def c1Text : String :=
  "Contact: a@b.com, phone 555-123-4567. 5 years experience in Python and React. Bachelor degree."

/-- The requirement profile of claim C1. -/
def c1Req : JobRequirements :=
  { requiredSkills := ["python", "react", "docker"]
    minExperienceYears := 3
    requiredEducation := "bachelor" }

/-- A candidate profile witnessing that the recommendation is computed from
the un-rounded total: the weighted total is 64.9982, which rounds to the
returned overall score 65 yet is classified below the 65 threshold. -/
def c4Cv : CvData :=
  { email := some "e@x.io"
    phone := none
    skills := ["Python", "React"]
    experienceYears := 3531
    education := ["BSC"] }

/-- The requirement profile for the C4 counterexample. -/
def c4Req : JobRequirements :=
  { requiredSkills := ["python", "react", "docker"]
    minExperienceYears := 5000
    requiredEducation := "zzz" }

/-! ## Helper lemmas -/

/-- Rounding to two decimals keeps a value inside the interval from 0 to
100. -/
theorem round2_mem (q : ℚ) (h0 : 0 ≤ q) (h1 : q ≤ 100) :
    0 ≤ round2 q ∧ round2 q ≤ 100 := by
  have e : round (q * 100) = ⌊q * 100 + 1 / 2⌋ := round_eq _
  have l0 : (0 : ℤ) ≤ round (q * 100) := by
    rw [e]
    exact Int.le_floor.mpr (by push_cast; linarith)
  have l1 : round (q * 100) ≤ 10000 := by
    rw [e]
    have hf : (⌊q * 100 + 1 / 2⌋ : ℚ) ≤ q * 100 + 1 / 2 := Int.floor_le _
    have hlt : (⌊q * 100 + 1 / 2⌋ : ℚ) < 10001 := by linarith
    have : ⌊q * 100 + 1 / 2⌋ < 10001 := by exact_mod_cast hlt
    omega
  unfold round2
  constructor
  · positivity
  · rw [div_le_iff₀ (by norm_num : (0 : ℚ) < 100)]
    calc ((round (q * 100) : ℤ) : ℚ) ≤ 10000 := by exact_mod_cast l1
      _ = 100 * 100 := by norm_num

/-- The skills component lies between 0 and 100. -/
theorem skillMatchScore_bounds (cand req : List String) :
    0 ≤ skillMatchScore cand req ∧ skillMatchScore cand req ≤ 100 := by
  unfold skillMatchScore
  split
  · norm_num
  · rename_i h
    apply round2_mem
    · positivity
    · have hlen : 0 < (req.map strLower).length := by
        rw [List.length_map]
        exact List.length_pos.mpr h
      have hm : (req.map strLower).countP
          (fun s => (cand.map strLower).contains s) ≤ (req.map strLower).length :=
        List.countP_le_length _
      have hnq : (0 : ℚ) < ((req.map strLower).length : ℚ) := by exact_mod_cast hlen
      have hmq : (((req.map strLower).countP
          (fun s => (cand.map strLower).contains s) : Nat) : ℚ)
            ≤ ((req.map strLower).length : ℚ) := by exact_mod_cast hm
      calc (((req.map strLower).countP (fun s => (cand.map strLower).contains s) : Nat) : ℚ)
            / ((req.map strLower).length : ℚ) * 100
          ≤ 1 * 100 := by
            apply mul_le_mul_of_nonneg_right _ (by norm_num)
            exact (div_le_one hnq).mpr hmq
        _ = 100 := one_mul 100

/-- The experience component lies between 0 and 100. -/
theorem expScore_bounds (c r : Nat) :
    0 ≤ expScore c r ∧ expScore c r ≤ 100 := by
  unfold expScore
  split
  · exact ⟨le_min (by norm_num) (by positivity), min_le_left _ _⟩
  · rename_i h
    have hcr : c < r := by omega
    have hmax : max r 1 = r := by omega
    rw [hmax]
    have hr0 : 0 < r := by omega
    have hrq : (0 : ℚ) < (r : ℚ) := by exact_mod_cast hr0
    constructor
    · positivity
    · have hle : (c : ℚ) ≤ (r : ℚ) := by exact_mod_cast Nat.le_of_lt hcr
      calc (c : ℚ) / (r : ℚ) * 70 ≤ 1 * 70 := by
            apply mul_le_mul_of_nonneg_right _ (by norm_num)
            exact (div_le_one hrq).mpr hle
        _ ≤ 100 := by norm_num

/-- The education component is 0, 80 or 100. -/
theorem eduScore_cases (edu : List String) (req : String) :
    eduScore edu req = 0 ∨ eduScore edu req = 80 ∨ eduScore edu req = 100 := by
  unfold eduScore
  split_ifs <;> simp

/-- The education component lies between 0 and 100. -/
theorem eduScore_bounds (edu : List String) (req : String) :
    0 ≤ eduScore edu req ∧ eduScore edu req ≤ 100 := by
  rcases eduScore_cases edu req with h | h | h <;> rw [h] <;> norm_num

/-- The completeness component lies between 0 and 100. -/
theorem completeness_bounds (cv : CvData) :
    0 ≤ completeness cv ∧ completeness cv ≤ 100 := by
  unfold completeness
  split_ifs <;> norm_num

/-- Evaluation helper: the skills component at a non-empty requirement list
whose hit count and length are known. -/
theorem skillMatchScore_eval (cand req : List String) (m n : Nat)
    (hm : (req.map strLower).countP
        (fun s => (cand.map strLower).contains s) = m)
    (hn : req.length = n) (hne : req ≠ []) :
    skillMatchScore cand req = round2 ((m : ℚ) / (n : ℚ) * 100) := by
  simp only [skillMatchScore]
  rw [if_neg hne, hm, List.length_map, hn]

/-- Evaluation helper: two of three required skills present. -/
theorem skillMatchScore_two_of_three :
    skillMatchScore ["Python", "React"] ["python", "react", "docker"]
      = 6667 / 100 := by
  rw [skillMatchScore_eval _ _ 2 3 (by decide) (by decide) (by decide)]
  norm_num [round2, round_eq]

/-- Evaluation helper: five years of experience against a requirement of
three. -/
theorem expScore_5_3 : expScore 5 3 = 100 := by
  simp only [expScore]
  rw [if_pos (by omega), show (max 3 1 : Nat) = 3 by omega]
  rw [min_eq_left (by norm_num)]

/-- Evaluation helper: the education component of the C1 document. -/
theorem eduScore_c1_value : eduScore ["BACHELOR", "BA"] "bachelor" = 100 := by
  simp only [eduScore]
  rw [if_neg (by decide), if_neg (by decide), if_pos (by decide)]

/-- Evaluation helper: the completeness component of the C1 document — the
phone field holds the empty string, which is falsy, so only 75 points. -/
theorem completeness_c1_value :
    completeness ⟨some "a@b.com", some "", ["Python", "React"], 5,
      ["BACHELOR", "BA"]⟩ = 75 := by
  simp only [completeness]
  rw [if_pos (by decide), if_neg (by decide), if_pos (by decide),
    if_pos (by decide)]
  norm_num

/-! ## Claims -/

/-- Claim C3: for every candidate profile and requirement profile, the
returned overall score is the weighted sum of the four breakdown components
(weights 0.4, 0.3, 0.2, 0.1) rounded to two decimals, each component lies
between 0 and 100 before weighting, and consequently the overall score lies
between 0 and 100. -/
theorem claim_C3_overall_weighted_sum (cv : CvData) (req : JobRequirements) :
    (calculateOverallScore cv req).overallScore =
      round2 (skillMatchScore cv.skills req.requiredSkills * 0.4
        + expScore cv.experienceYears req.minExperienceYears * 0.3
        + eduScore cv.education req.requiredEducation * 0.2
        + completeness cv * 0.1)
    ∧ (0 ≤ skillMatchScore cv.skills req.requiredSkills
        ∧ skillMatchScore cv.skills req.requiredSkills ≤ 100)
    ∧ (0 ≤ expScore cv.experienceYears req.minExperienceYears
        ∧ expScore cv.experienceYears req.minExperienceYears ≤ 100)
    ∧ (0 ≤ eduScore cv.education req.requiredEducation
        ∧ eduScore cv.education req.requiredEducation ≤ 100)
    ∧ (0 ≤ completeness cv ∧ completeness cv ≤ 100)
    ∧ 0 ≤ (calculateOverallScore cv req).overallScore
    ∧ (calculateOverallScore cv req).overallScore ≤ 100 := by
  have hs := skillMatchScore_bounds cv.skills req.requiredSkills
  have he := expScore_bounds cv.experienceYears req.minExperienceYears
  have hd := eduScore_bounds cv.education req.requiredEducation
  have hc := completeness_bounds cv
  have htot : 0 ≤ rawTotal cv req ∧ rawTotal cv req ≤ 100 := by
    unfold rawTotal
    constructor
    · nlinarith [hs.1, he.1, hd.1, hc.1]
    · nlinarith [hs.2, he.2, hd.2, hc.2]
  have hov := round2_mem _ htot.1 htot.2
  exact ⟨rfl, hs, he, hd, hc, hov.1, hov.2⟩

/-- Claim C5: the experience component follows the stated formula, with the
0.7 penalty factor below the requirement and the denominator floored at 1;
in particular 5 years against a requirement of 3 gives 100, and 2 years
against 5 gives 28. -/
theorem claim_C5_experience_formula :
    (∀ c r : Nat, expScore c r =
      if c ≥ r then min 100 ((c : ℚ) / ((max r 1 : Nat) : ℚ) * 100)
      else (c : ℚ) / ((max r 1 : Nat) : ℚ) * 70)
    ∧ expScore 5 3 = 100 ∧ expScore 2 5 = 28 := by
  refine ⟨fun _ _ => rfl, expScore_5_3, ?_⟩
  · simp only [expScore]
    rw [if_neg (by omega), show (max 5 1 : Nat) = 5 by omega]
    norm_num

/-- Claim C7: the skills component equals the specification-side formula —
100 for an empty requirement list, otherwise the case-insensitive hit count
over the required skills divided by their number, times 100, rounded to two
decimals; in particular an empty requirement list always scores 100. -/
theorem claim_C7_skills_match :
    (∀ cand req : List String, skillMatchScore cand req = skillMatchSpec cand req)
    ∧ ∀ cand : List String, skillMatchScore cand [] = 100 := by
  constructor
  · intro cand req
    by_cases h : req = []
    · subst h; rfl
    · simp only [skillMatchScore, skillMatchSpec]
      rw [if_neg h, if_neg (by simpa [List.isEmpty_iff] using h)]
      rw [List.countP_map, List.length_map]
      rfl
  · intro cand
    rfl

/-- Claim C6: the education component checks the tiers in
phd-master-bachelor priority order against the lower-cased requirement
string, awarding 100 for the first satisfied tier, 80 for any education at
all, and 0 otherwise — i.e. it coincides with the tier-list specification. -/
theorem claim_C6_education_tiers (edu : List String) (req : String) :
    eduScore edu req = eduScoreSpec edu req := by
  unfold eduScore eduScoreSpec eduTiers
  simp only [List.find?, List.any_cons, List.any_nil, Bool.or_false]
  generalize (containsSub "phd" (strLower req) && edu.contains "PHD") = b1
  generalize (containsSub "master" (strLower req)
      && (edu.contains "MASTER" || (edu.contains "MBA"
        || (edu.contains "MSC" || edu.contains "MA")))) = b2
  generalize (containsSub "bachelor" (strLower req)
      && (edu.contains "BACHELOR" || (edu.contains "BSC" || edu.contains "BA"))) = b3
  generalize edu.isEmpty = b4
  cases b1 <;> cases b2 <;> cases b3 <;> cases b4 <;> simp

/-- Claim C4, counterexample: at this candidate and requirement profile the
un-rounded weighted total is 64.9982, so the returned overall score is
exactly 65 while the recommendation is the Moderate label — contradicting
the claim that a returned score of 65 yields the Good tier. -/
theorem claim_C4_counterexample :
    (calculateOverallScore c4Cv c4Req).overallScore = 65
    ∧ (calculateOverallScore c4Cv c4Req).recommendation
        ≠ "Good Match - Recommended for Interview" := by
  have hs : skillMatchScore c4Cv.skills c4Req.requiredSkills = 6667 / 100 := by
    rw [show c4Cv.skills = ["Python", "React"] from rfl,
      show c4Req.requiredSkills = ["python", "react", "docker"] from rfl,
      skillMatchScore_eval _ _ 2 3 (by decide) (by decide) (by decide)]
    norm_num [round2, round_eq]
  have he : expScore c4Cv.experienceYears c4Req.minExperienceYears = 24717 / 500 := by
    rw [show c4Cv.experienceYears = 3531 from rfl,
      show c4Req.minExperienceYears = 5000 from rfl]
    simp only [expScore]
    rw [if_neg (by omega), show (max 5000 1 : Nat) = 5000 by omega]
    norm_num
  have hd : eduScore c4Cv.education c4Req.requiredEducation = 80 := by
    rw [show c4Cv.education = ["BSC"] from rfl,
      show c4Req.requiredEducation = "zzz" from rfl]
    simp only [eduScore]
    rw [if_neg (by decide), if_neg (by decide), if_neg (by decide),
      if_pos (by decide)]
  have hc : completeness c4Cv = 75 := by
    simp only [completeness]
    rw [if_pos (by decide), if_neg (by decide), if_pos (by decide),
      if_pos (by decide)]
    norm_num
  have hraw : rawTotal c4Cv c4Req = 324991 / 5000 := by
    unfold rawTotal
    rw [hs, he, hd, hc]
    norm_num
  constructor
  · show round2 (rawTotal c4Cv c4Req) = 65
    rw [hraw]
    norm_num [round2, round_eq]
  · show getRecommendation (rawTotal c4Cv c4Req) ≠ _
    rw [hraw]
    simp only [getRecommendation]
    rw [if_neg (by norm_num), if_neg (by norm_num), if_pos (by norm_num)]
    decide

/-- Claim C4, amended: the recommendation label is determined by the
un-rounded weighted total (not by the rounded overall score) with inclusive
lower bounds 80, 65 and 50; the two agree except when rounding the total to
two decimals crosses a tier boundary. -/
theorem claim_C4_amended (cv : CvData) (req : JobRequirements) :
    (calculateOverallScore cv req).recommendation =
      if rawTotal cv req ≥ 80 then "Strong Match - Highly Recommended for Interview"
      else if rawTotal cv req ≥ 65 then "Good Match - Recommended for Interview"
      else if rawTotal cv req ≥ 50 then "Moderate Match - Consider for Interview"
      else "Weak Match - Not Recommended" := rfl

/-- Claim C2: on the text "555-123-4567" the phone extractor returns the
empty string — the content of the optional country-code capture group, which
is what `re.findall` yields for a pattern with one group — and not the
matched substring "555-123-4567" that the claim describes. -/
theorem claim_C2_returns_group_not_match :
    extractPhone "555-123-4567" = some ""
    ∧ extractPhone "555-123-4567" ≠ some "555-123-4567" := by decide

/-- Claim C1: on the C1 document text with the C1 requirements the analysis
actually returns skills 66.67, experience 100, education 100 — but
completeness 75 and overall 84.17 (still the Strong tier), because the phone
extractor returns the empty country-code capture group instead of the
number, so the phone field counts as missing. -/
theorem claim_C1_end_to_end_actual :
    (calculateOverallScore (extractCvData c1Text) c1Req).skillsMatch = 66.67
    ∧ (calculateOverallScore (extractCvData c1Text) c1Req).experienceMatch = 100
    ∧ (calculateOverallScore (extractCvData c1Text) c1Req).educationMatch = 100
    ∧ (calculateOverallScore (extractCvData c1Text) c1Req).cvCompleteness = 75
    ∧ (calculateOverallScore (extractCvData c1Text) c1Req).overallScore = 84.17
    ∧ (calculateOverallScore (extractCvData c1Text) c1Req).recommendation
        = "Strong Match - Highly Recommended for Interview"
    ∧ extractPhone c1Text = some "" := by
  have hcv : extractCvData c1Text =
      ⟨some "a@b.com", some "", ["Python", "React"], 5, ["BACHELOR", "BA"]⟩ := by
    decide
  rw [hcv]
  have hraw : rawTotal
      ⟨some "a@b.com", some "", ["Python", "React"], 5, ["BACHELOR", "BA"]⟩
      c1Req = 10521 / 125 := by
    show skillMatchScore ["Python", "React"] ["python", "react", "docker"] * 0.4
        + expScore 5 3 * 0.3 + eduScore ["BACHELOR", "BA"] "bachelor" * 0.2
        + completeness ⟨some "a@b.com", some "", ["Python", "React"], 5,
            ["BACHELOR", "BA"]⟩ * 0.1 = 10521 / 125
    rw [skillMatchScore_two_of_three, expScore_5_3, eduScore_c1_value,
      completeness_c1_value]
    norm_num
  refine ⟨?_, ?_, ?_, ?_, ?_, ?_, by decide⟩
  · show round2 (skillMatchScore ["Python", "React"]
      ["python", "react", "docker"]) = 66.67
    rw [skillMatchScore_two_of_three]
    norm_num [round2, round_eq]
  · show round2 (expScore 5 3) = 100
    rw [expScore_5_3]
    norm_num [round2, round_eq]
  · show round2 (eduScore ["BACHELOR", "BA"] "bachelor") = 100
    rw [eduScore_c1_value]
    norm_num [round2, round_eq]
  · show round2 (completeness ⟨some "a@b.com", some "", ["Python", "React"], 5,
      ["BACHELOR", "BA"]⟩) = 75
    rw [completeness_c1_value]
    norm_num [round2, round_eq]
  · show round2 (rawTotal ⟨some "a@b.com", some "", ["Python", "React"], 5,
      ["BACHELOR", "BA"]⟩ c1Req) = 84.17
    rw [hraw]
    norm_num [round2, round_eq]
  · show getRecommendation (rawTotal ⟨some "a@b.com", some "",
      ["Python", "React"], 5, ["BACHELOR", "BA"]⟩ c1Req) = _
    rw [hraw]
    simp only [getRecommendation]
    rw [if_pos (by norm_num)]

/-- Claim C8: experience extraction tries the three patterns in fixed
priority order on the lower-cased text and returns the integer captured by
the first match of the first matching pattern, 0 when none matches; in
particular pattern priority beats textual position — in a text where the
"years in" pattern matches earlier, the later "years experience" match of
the first pattern still wins. -/
theorem claim_C8_pattern_priority :
    (∀ t : String, extractExperienceYears t =
      match scanOpt expP1At (strLower t).data with
      | some ds => digitsToNat ds
      | none =>
        match scanOpt expP2At (strLower t).data with
        | some ds => digitsToNat ds
        | none =>
          match scanOpt expP3At (strLower t).data with
          | some ds => digitsToNat ds
          | none => 0)
    ∧ extractExperienceYears "10 years in sales and 3 years experience" = 3
    ∧ extractExperienceYears "Experience: 7 years" = 7
    ∧ extractExperienceYears "4 years in data" = 4
    ∧ extractExperienceYears "worked 12+ years of experience" = 12
    ∧ extractExperienceYears "no years figure" = 0 :=
  ⟨fun _ => rfl, by decide, by decide, by decide, by decide, by decide⟩

/-- Ordered insertion preserves, for every score value, the subsequence of
elements carrying that score: the inserted element goes in front of the
equal-scored block, exactly where it stood in `x :: l`. -/
theorem filter_orderedInsert (q : ℚ) (x : AnalyzeOk) (l : List AnalyzeOk) :
    (l.orderedInsert rankRel x).filter
        (fun a => a.score.overallScore == q)
      = ((x :: l).filter fun a => a.score.overallScore == q) := by
  induction l with
  | nil => rfl
  | cons y ys ih =>
    rw [List.orderedInsert]
    by_cases h : rankRel x y
    · rw [if_pos h]
    · rw [if_neg h]
      have hxy : x.score.overallScore < y.score.overallScore := not_le.mp h
      cases hx : (x.score.overallScore == q) with
      | true =>
        cases hy : (y.score.overallScore == q) with
        | true =>
          exact absurd ((beq_iff_eq.mp hx).trans
            (beq_iff_eq.mp hy).symm) (ne_of_lt hxy)
        | false =>
          rw [List.filter_cons_of_neg (by simp [hy]), ih,
            List.filter_cons_of_pos (by simp [hx]),
            List.filter_cons_of_pos (by simp [hx]),
            List.filter_cons_of_neg (by simp [hy])]
      | false =>
        cases hy : (y.score.overallScore == q) with
        | true =>
          rw [List.filter_cons_of_pos (by simp [hy]), ih,
            List.filter_cons_of_neg (by simp [hx]),
            List.filter_cons_of_neg (by simp [hx]),
            List.filter_cons_of_pos (by simp [hy])]
        | false =>
          rw [List.filter_cons_of_neg (by simp [hy]), ih,
            List.filter_cons_of_neg (by simp [hx]),
            List.filter_cons_of_neg (by simp [hx]),
            List.filter_cons_of_neg (by simp [hy])]

/-- Insertion sort preserves, for every score value, the subsequence of
elements carrying that score — the stability property of the ranking. -/
theorem filter_insertionSort (q : ℚ) (l : List AnalyzeOk) :
    (List.insertionSort rankRel l).filter
        (fun a => a.score.overallScore == q)
      = l.filter fun a => a.score.overallScore == q := by
  induction l with
  | nil => rfl
  | cons x xs ih =>
    rw [List.insertionSort, filter_orderedInsert]
    cases hx : (x.score.overallScore == q) with
    | true =>
      rw [List.filter_cons_of_pos (by simp [hx]),
        List.filter_cons_of_pos (by simp [hx]), ih]
    | false =>
      rw [List.filter_cons_of_neg (by simp [hx]),
        List.filter_cons_of_neg (by simp [hx]), ih]

/-- The successful results and the error entries of a batch partition the
input documents. -/
theorem batch_counts (docs : List DocInput) (req : JobRequirements) :
    (batchOks docs req).length + (batchErrs docs).length = docs.length
    ∧ (batchErrs docs).length = docs.countP DocInput.isFail := by
  induction docs with
  | nil => exact ⟨rfl, rfl⟩
  | cons d ds ih =>
    cases d with
    | ok f t =>
      simp [batchOks, batchErrs, List.filterMap_cons, List.countP_cons,
        DocInput.isFail] at ih ⊢
      omega
    | fail f e =>
      simp [batchOks, batchErrs, List.filterMap_cons, List.countP_cons,
        DocInput.isFail] at ih ⊢
      omega

/-- Claim C9: the batch result ranks the successfully analyzed candidates by
overall score, descending, with a stable sort (for every score value the
equal-scored candidates keep their input order), every per-document failure
becomes exactly one error entry without aborting the batch, and the counts
add up: successfully_analyzed = N minus the number of failed documents. -/
theorem claim_C9_batch_ranking (docs : List DocInput) (req : JobRequirements) :
    (batchAnalyze docs req).totalCandidates = docs.length
    ∧ (batchAnalyze docs req).successfullyAnalyzed
        = docs.length - (batchAnalyze docs req).errors.length
    ∧ (batchAnalyze docs req).errors.length = docs.countP DocInput.isFail
    ∧ List.Sorted rankRel (batchAnalyze docs req).rankedCandidates
    ∧ List.Perm (batchAnalyze docs req).rankedCandidates (batchOks docs req)
    ∧ ∀ q : ℚ, (batchAnalyze docs req).rankedCandidates.filter
          (fun a => a.score.overallScore == q)
        = (batchOks docs req).filter fun a => a.score.overallScore == q := by
  refine ⟨rfl, ?_, (batch_counts docs req).2, ?_, ?_, ?_⟩
  · show (List.insertionSort rankRel (batchOks docs req)).length
        = docs.length - (batchErrs docs).length
    rw [List.length_insertionSort]
    have h := (batch_counts docs req).1
    omega
  · exact List.sorted_insertionSort rankRel _
  · exact List.perm_insertionSort rankRel _
  · exact fun q => filter_insertionSort q _

/-- The separator class consists of exactly eight characters. -/
theorem sep_cases (c : Char) (h : sepChar c = true) :
    c = '-' ∨ c = '.' ∨ c = ' ' ∨ c = '\t' ∨ c = '\n' ∨ c = '\x0b'
      ∨ c = '\x0c' ∨ c = '\r' := by
  simp [sepChar, pySpace] at h
  tauto

/-- A digit is not a plus sign, not a parenthesis and not a separator. -/
theorem digit_facts (c : Char) (h : c.isDigit = true) :
    c ≠ '+' ∧ c ≠ '(' ∧ c ≠ ')' ∧ sepChar c = false := by
  refine ⟨?_, ?_, ?_, ?_⟩
  · rintro rfl; exact absurd h (by decide)
  · rintro rfl; exact absurd h (by decide)
  · rintro rfl; exact absurd h (by decide)
  · cases hs : sepChar c
    · rfl
    · rcases sep_cases c hs with rfl | rfl | rfl | rfl | rfl | rfl | rfl | rfl <;>
        exact absurd h (by decide)

/-- A separator is not a digit, a parenthesis or a plus sign. -/
theorem sep_facts (c : Char) (h : sepChar c = true) :
    c.isDigit = false ∧ c ≠ '(' ∧ c ≠ ')' ∧ c ≠ '+' := by
  rcases sep_cases c h with rfl | rfl | rfl | rfl | rfl | rfl | rfl | rfl <;>
    exact ⟨by decide, by decide, by decide, by decide⟩

/-- The phone pattern cannot match at a position whose first character is
neither a digit, a plus sign nor an opening parenthesis. -/
theorem matchPhoneAt_safe (c : Char) (l : List Char)
    (hd : c.isDigit = false) (hp : c ≠ '+') (hl : c ≠ '(') :
    matchPhoneAt (c :: l) = none := by
  simp [matchPhoneAt, plusSplit, phoneGroupK, takeDigitsN, phoneTail,
    skipOptC, dropDigits, hd, hp, hl]

/-- A prefix without digits, plus signs and opening parentheses does not
affect the phone scan. -/
theorem phoneScan_append (pre l : List Char)
    (hpre : ∀ c ∈ pre, c.isDigit = false ∧ c ≠ '+' ∧ c ≠ '(') :
    phoneScan (pre ++ l) = phoneScan l := by
  induction pre with
  | nil => rfl
  | cons c cs ih =>
    have hc := hpre c (List.mem_cons_self c cs)
    rw [List.cons_append]
    show (match matchPhoneAt (c :: (cs ++ l)) with
      | some g => some g
      | none => phoneScan (cs ++ l)) = phoneScan l
    rw [matchPhoneAt_safe c _ hc.1 hc.2.1 hc.2.2]
    exact ih fun d hd => hpre d (List.mem_cons_of_mem c hd)

/-- At a bare 3-3-4 phone number (no country code, separators between the
groups, nothing after) the pattern matches with an unused capture group, so
the reported group content is the empty string. -/
theorem matchPhoneAt_bare (a1 a2 a3 b1 b2 b3 c1 c2 c3 c4 s1 s2 : Char)
    (ha1 : a1.isDigit = true) (ha2 : a2.isDigit = true)
    (ha3 : a3.isDigit = true) (hb1 : b1.isDigit = true)
    (hb2 : b2.isDigit = true) (hb3 : b3.isDigit = true)
    (hc1 : c1.isDigit = true) (hc2 : c2.isDigit = true)
    (hc3 : c3.isDigit = true) (hc4 : c4.isDigit = true)
    (hs1 : sepChar s1 = true) (hs2 : sepChar s2 = true) :
    matchPhoneAt [a1, a2, a3, s1, b1, b2, b3, s2, c1, c2, c3, c4]
      = some "" := by
  obtain ⟨ha1p, ha1l, ha1r, ha1s⟩ := digit_facts a1 ha1
  obtain ⟨ha2p, ha2l, ha2r, ha2s⟩ := digit_facts a2 ha2
  obtain ⟨ha3p, ha3l, ha3r, ha3s⟩ := digit_facts a3 ha3
  obtain ⟨hb1p, hb1l, hb1r, hb1s⟩ := digit_facts b1 hb1
  obtain ⟨hc1p, hc1l, hc1r, hc1s⟩ := digit_facts c1 hc1
  obtain ⟨hc4p, hc4l, hc4r, hc4s⟩ := digit_facts c4 hc4
  obtain ⟨hs1d, hs1l, hs1r, hs1p⟩ := sep_facts s1 hs1
  obtain ⟨hs2d, hs2l, hs2r, hs2p⟩ := sep_facts s2 hs2
  simp [matchPhoneAt, plusSplit, phoneGroupK, takeDigitsN, phoneTail,
    skipOptC, skipOptP, dropDigits,
    ha1, ha2, ha3, hb1, hb2, hb3, hc1, hc2, hc3, hc4, hs1, hs2,
    ha1p, ha1l, ha1r, ha1s, ha2p, ha2l, ha2r, ha2s, ha3p, ha3l, ha3r, ha3s,
    hb1p, hb1l, hb1r, hb1s, hc1p, hc1l, hc1r, hc1s, hc4p, hc4l, hc4r, hc4s,
    hs1d, hs1l, hs1r, hs1p, hs2d, hs2l, hs2r, hs2p]

/-- Claim C10: a text made of a harmless prefix (no digits, plus signs or
opening parentheses) followed by a bare 3-3-4 phone number yields the empty
string from the phone extractor — the content of the unused country-code
capture group — and the completeness component then treats the phone field
exactly like a missing one. -/
theorem claim_C10_bare_phone_empty (pre : List Char)
    (a1 a2 a3 b1 b2 b3 c1 c2 c3 c4 s1 s2 : Char)
    (hpre : ∀ c ∈ pre, c.isDigit = false ∧ c ≠ '+' ∧ c ≠ '(')
    (ha1 : a1.isDigit = true) (ha2 : a2.isDigit = true)
    (ha3 : a3.isDigit = true) (hb1 : b1.isDigit = true)
    (hb2 : b2.isDigit = true) (hb3 : b3.isDigit = true)
    (hc1 : c1.isDigit = true) (hc2 : c2.isDigit = true)
    (hc3 : c3.isDigit = true) (hc4 : c4.isDigit = true)
    (hs1 : sepChar s1 = true) (hs2 : sepChar s2 = true) :
    extractPhone ⟨pre ++ [a1, a2, a3, s1, b1, b2, b3, s2, c1, c2, c3, c4]⟩
      = some ""
    ∧ ∀ (em : Option String) (sk : List String) (ey : Nat) (ed : List String),
        completeness ⟨em,
          extractPhone ⟨pre ++ [a1, a2, a3, s1, b1, b2, b3, s2, c1, c2, c3, c4]⟩,
          sk, ey, ed⟩ = completeness ⟨em, none, sk, ey, ed⟩ := by
  have hm : extractPhone
      ⟨pre ++ [a1, a2, a3, s1, b1, b2, b3, s2, c1, c2, c3, c4]⟩ = some "" := by
    show phoneScan (pre ++ [a1, a2, a3, s1, b1, b2, b3, s2, c1, c2, c3, c4])
      = some ""
    rw [phoneScan_append pre _ hpre]
    show (match matchPhoneAt [a1, a2, a3, s1, b1, b2, b3, s2, c1, c2, c3, c4]
      with
      | some g => some g
      | none => phoneScan [a2, a3, s1, b1, b2, b3, s2, c1, c2, c3, c4])
        = some ""
    rw [matchPhoneAt_bare a1 a2 a3 b1 b2 b3 c1 c2 c3 c4 s1 s2
      ha1 ha2 ha3 hb1 hb2 hb3 hc1 hc2 hc3 hc4 hs1 hs2]
  refine ⟨hm, fun em sk ey ed => ?_⟩
  rw [hm]
  rfl

/-- Witness for claim C10: the concrete text "Phone: 555-123-4567"
instantiates the theorem — the extractor returns the empty string and the
completeness of a concrete profile built from it equals the completeness
with no phone at all. -/
theorem claim_C10_witness :
    extractPhone ⟨("Phone: ").data
        ++ ['5', '5', '5', '-', '1', '2', '3', '-', '4', '5', '6', '7']⟩
      = some ""
    ∧ ∀ (em : Option String) (sk : List String) (ey : Nat) (ed : List String),
        completeness ⟨em,
          extractPhone ⟨("Phone: ").data
            ++ ['5', '5', '5', '-', '1', '2', '3', '-', '4', '5', '6', '7']⟩,
          sk, ey, ed⟩ = completeness ⟨em, none, sk, ey, ed⟩ :=
  claim_C10_bare_phone_empty ("Phone: ").data
    '5' '5' '5' '1' '2' '3' '4' '5' '6' '7' '-' '-'
    (by decide) (by decide) (by decide) (by decide) (by decide) (by decide)
    (by decide) (by decide) (by decide) (by decide) (by decide) (by decide)
    (by decide)
